import Mathlib

/-!
Shallow embedding of `src/libinput-gestures.c`, a 29-line setuid launcher:

```
int main(int argc, char *argv[]) {
    setreuid(geteuid(), geteuid());            // line 9
    setregid(getegid(), getegid());            // line 10
    char linkPath[PATH_MAX];
    pid_t pid = getpid();
    sprintf(linkPath, "/proc/%d/exe", pid);    // line 14
    char exePath[PATH_MAX];
    memset(exePath, 0, sizeof(exePath));       // line 17
    if (readlink(linkPath, exePath, PATH_MAX) == -1) {   // line 19
        printf("Failed to get executable path");
        return 1;
    }
    char scriptPath[PATH_MAX];
    snprintf(scriptPath, PATH_MAX, "%s.py", exePath);    // line 26
    return execv(scriptPath, argv);            // line 28
}
```

The OS interaction is embedded as an explicit environment (`OSEnv`): the
initial credentials, the process id, whether each `setreuid`/`setregid` call
succeeds, the target of the `/proc/<pid>/exe` symlink (`none` = `readlink`
fails), and whether `execv` succeeds.  `main` threads that environment
through the exact sequence of calls of the source and records every
observable of a run (`RunResult`): the credentials held after the two
credential calls, the buffers, the diagnostic output, the argument of the
`execv` call if one is made, the final outcome, and the trace of calls.
-/

namespace LibinputGestures

/-- PATH_MAX of the target platform (`limits.h`), the size of all three buffers. -/
def PATH_MAX : Nat := 4096

/-- The NUL character: the `memset` fill byte and the C string terminator. -/
def nul : Char := Char.ofNat 0

/-- Decimal digit string of a natural number, most significant digit first,
as `printf %d` renders it (digit `d` is the character of code `48 + d`). -/
def natDecimal (n : Nat) : List Char :=
  if n = 0 then [Char.ofNat 48]
  else ((Nat.digits 10 n).reverse).map (fun d => Char.ofNat (48 + d))

/-- `printf %d` rendering of a (possibly negative) integer. -/
def intDecimal (i : Int) : List Char :=
  if i < 0 then Char.ofNat 45 :: natDecimal i.natAbs else natDecimal i.toNat

/-- The four process credentials: real/effective user id, real/effective group id. -/
structure Creds where
  ruid : Nat
  euid : Nat
  rgid : Nat
  egid : Nat
  deriving DecidableEq

/-- `setreuid(r, e)`: on success sets the real and effective user id and
returns `0`; on failure leaves the credentials unchanged and returns `-1`.
Whether the call succeeds is given by the environment flag `ok`. -/
def setreuid (ok : Bool) (c : Creds) (r e : Nat) : Creds × Int :=
  if ok then ({ c with ruid := r, euid := e }, 0) else (c, -1)

/-- `setregid(r, e)`: on success sets the real and effective group id and
returns `0`; on failure leaves the credentials unchanged and returns `-1`. -/
def setregid (ok : Bool) (c : Creds) (r e : Nat) : Creds × Int :=
  if ok then ({ c with rgid := r, egid := e }, 0) else (c, -1)

/-- Line 14: the string `sprintf(linkPath, "/proc/%d/exe", pid)` formats. -/
def sprintfLinkPath (pid : Int) : List Char :=
  "/proc/".toList ++ intDecimal pid ++ "/exe".toList

/-- The two formatting primitives a C program can format the lookup key with:
`sprintf` writes without any bound check, `snprintf` is bounded by a size
argument. -/
inductive FormatPrimitive where
  | sprintf : FormatPrimitive
  | snprintf : FormatPrimitive
  deriving DecidableEq

/-- Whether a formatting primitive is bounded/checked. -/
def FormatPrimitive.bounded : FormatPrimitive → Bool
  | FormatPrimitive.sprintf => false
  | FormatPrimitive.snprintf => true

/-- The primitive the source uses at line 14 to format the lookup key:
plain `sprintf`, with no size bound. -/
def linkPathPrimitive : FormatPrimitive := FormatPrimitive.sprintf

/-- Contents of the `exePath` buffer after `memset(exePath, 0, PATH_MAX)`
(line 17) and a successful `readlink(linkPath, exePath, PATH_MAX)` (line 19)
whose link target is `t`: `readlink` writes the first `min |t| PATH_MAX`
bytes of the target and never writes a NUL terminator; the remaining bytes
keep the zero fill. -/
def readlinkBuf (t : List Char) : List Char :=
  t.take PATH_MAX ++ List.replicate (PATH_MAX - min t.length PATH_MAX) nul

/-- Return value of `readlink`: `-1` on failure, otherwise the number of
bytes placed in the buffer. -/
def readlinkRet : Option (List Char) → Int
  | none => -1
  | some t => Int.ofNat (min t.length PATH_MAX)

/-- The C string a buffer holds: its bytes up to the first NUL. -/
def cString (buf : List Char) : List Char :=
  buf.takeWhile (fun c => c != nul)

/-- Line 26: `snprintf(scriptPath, PATH_MAX, "%s.py", exePath)` stores at
most `PATH_MAX - 1` characters plus a NUL terminator; longer output is
silently truncated. -/
def snprintfScriptPath (exeStr : List Char) : List Char :=
  (exeStr ++ ".py".toList).take (PATH_MAX - 1)

/-- The observable calls a run makes, in order. -/
inductive Event where
  | setreuidCall : Event
  | setregidCall : Event
  | sprintfCall : Event
  | readlinkCall : Event
  | printfCall : Event
  | snprintfCall : Event
  | execvCall : Event
  | exitCall : Event
  deriving DecidableEq

/-- The environment of one invocation: everything the OS decides. -/
structure OSEnv where
  creds : Creds
  pid : Int
  setreuidOk : Bool
  setregidOk : Bool
  linkTarget : Option (List Char)
  execvOk : Bool

/-- How a run ends: the process image is replaced by a successful `execv`,
or `main` returns an exit code. -/
inductive Outcome where
  | execReplaced (path : List Char) (args : List String) : Outcome
  | exited (code : Int) : Outcome
  deriving DecidableEq

/-- Every observable of one run of `main`. -/
structure RunResult where
  credsAfterDrop : Creds
  linkPath : List Char
  exeBuf : Option (List Char)
  scriptPath : Option (List Char)
  diagnostic : Option (List Char)
  execCall : Option (List Char × List String)
  outcome : Outcome
  trace : List Event

/-- Trace of a run whose `readlink` fails: lines 9, 10, 14, 19, 21, 22. -/
def failTrace : List Event :=
  [Event.setreuidCall, Event.setregidCall, Event.sprintfCall,
   Event.readlinkCall, Event.printfCall, Event.exitCall]

/-- Trace of a run whose `execv` succeeds: lines 9, 10, 14, 19, 26, 28. -/
def execTrace : List Event :=
  [Event.setreuidCall, Event.setregidCall, Event.sprintfCall,
   Event.readlinkCall, Event.snprintfCall, Event.execvCall]

/-- Trace of a run whose `execv` fails: lines 9, 10, 14, 19, 26, 28, and
`main` returns `execv`'s return value. -/
def execFailTrace : List Event :=
  [Event.setreuidCall, Event.setregidCall, Event.sprintfCall,
   Event.readlinkCall, Event.snprintfCall, Event.execvCall, Event.exitCall]

/-- The `main` function of `src/libinput-gestures.c`, line by line.  The
return values of `setreuid` and `setregid` are bound and then discarded,
exactly as the source ignores them. -/
def main (env : OSEnv) (argv : List String) : RunResult :=
  -- line 9: setreuid(geteuid(), geteuid());  return value ignored
  let uidRes := setreuid env.setreuidOk env.creds env.creds.euid env.creds.euid
  let c1 := uidRes.1
  -- line 10: setregid(getegid(), getegid());  return value ignored
  let gidRes := setregid env.setregidOk c1 c1.egid c1.egid
  let c2 := gidRes.1
  -- lines 12-14: sprintf(linkPath, "/proc/%d/exe", pid)
  let linkPath := sprintfLinkPath env.pid
  -- lines 16-23: memset + readlink, early return 1 with a diagnostic on failure
  match env.linkTarget with
  | none =>
      { credsAfterDrop := c2
        linkPath := linkPath
        exeBuf := none
        scriptPath := none
        diagnostic := some "Failed to get executable path".toList
        execCall := none
        outcome := Outcome.exited 1
        trace := failTrace }
  | some t =>
      let exeBuf := readlinkBuf t
      -- lines 25-26: snprintf(scriptPath, PATH_MAX, "%s.py", exePath)
      let scriptPath := snprintfScriptPath (cString exeBuf)
      -- line 28: return execv(scriptPath, argv);
      if env.execvOk then
        { credsAfterDrop := c2
          linkPath := linkPath
          exeBuf := some exeBuf
          scriptPath := some scriptPath
          diagnostic := none
          execCall := some (scriptPath, argv)
          outcome := Outcome.execReplaced scriptPath argv
          trace := execTrace }
      else
        { credsAfterDrop := c2
          linkPath := linkPath
          exeBuf := some exeBuf
          scriptPath := some scriptPath
          diagnostic := none
          execCall := some (scriptPath, argv)
          outcome := Outcome.exited (-1)
          trace := execFailTrace }

/-! ### Helper lemmas about the buffer primitives -/

/-- `takeWhile` passes over a prefix all of whose elements satisfy the test. -/
lemma takeWhile_append_all (p : Char → Bool) (t u : List Char)
    (h : ∀ c ∈ t, p c = true) :
    (t ++ u).takeWhile p = t ++ u.takeWhile p := by
  induction t with
  | nil => simp
  | cons a l ih =>
      have ha : p a = true := h a (List.mem_cons_self a l)
      have hl : ∀ c ∈ l, p c = true := fun c hc => h c (List.mem_cons_of_mem a hc)
      simp [List.takeWhile_cons, ha, ih hl]

/-- `takeWhile` stops immediately on a zero-filled region. -/
lemma takeWhile_replicate_nul (k : Nat) :
    (List.replicate k nul).takeWhile (fun c => c != nul) = [] := by
  cases k with
  | zero => rfl
  | succ n => simp [List.replicate_succ, List.takeWhile_cons]

/-- If the link target has no NUL byte and fits with room for a terminator,
the zero-filled buffer holds it exactly as a C string. -/
lemma cString_readlinkBuf (t : List Char) (hnul : ∀ c ∈ t, c ≠ nul)
    (hlen : t.length ≤ PATH_MAX - 1) :
    cString (readlinkBuf t) = t := by
  unfold cString readlinkBuf
  have h1 : t.take PATH_MAX = t := List.take_of_length_le (by unfold PATH_MAX at *; omega)
  rw [h1, takeWhile_append_all _ _ _ (fun c hc => by
    simpa [bne_iff_ne] using hnul c hc)]
  rw [takeWhile_replicate_nul, List.append_nil]

/-- When the derived path fits, `snprintf` performs plain concatenation. -/
lemma snprintfScriptPath_eq (s : List Char) (h : s.length + 3 ≤ PATH_MAX - 1) :
    snprintfScriptPath s = s ++ ".py".toList := by
  unfold snprintfScriptPath
  exact List.take_of_length_le (by simp; omega)

/-- A natural below `10 ^ k` has at most `k` decimal digits. -/
lemma digits_length_le (k : Nat) : ∀ n : Nat, n < 10 ^ k →
    (Nat.digits 10 n).length ≤ k := by
  induction k with
  | zero =>
      intro n hn
      interval_cases n
      simp
  | succ k ih =>
      intro n hn
      by_cases h0 : n = 0
      · simp [h0]
      · rw [Nat.digits_def' (by norm_num) (Nat.pos_of_ne_zero h0)]
        have hdiv : n / 10 < 10 ^ k := by
          rw [Nat.div_lt_iff_lt_mul (by norm_num)]
          calc n < 10 ^ (k + 1) := hn
            _ = 10 ^ k * 10 := by ring
        simpa using Nat.succ_le_succ (ih (n / 10) hdiv)

/-- The decimal rendering of a natural below `10 ^ k` (with `k ≥ 1`) has at
most `k` characters. -/
lemma natDecimal_length_le (k n : Nat) (hk : 1 ≤ k) (hn : n < 10 ^ k) :
    (natDecimal n).length ≤ k := by
  unfold natDecimal
  by_cases h0 : n = 0
  · simp [h0, hk]
  · simpa [h0] using digits_length_le k n hn

/-- Any 32-bit signed integer prints in at most 11 characters. -/
lemma intDecimal_length_le (i : Int) (hlo : -(2 ^ 31) ≤ i) (hhi : i < 2 ^ 31) :
    (intDecimal i).length ≤ 11 := by
  unfold intDecimal
  by_cases hneg : i < 0
  · have habs : i.natAbs ≤ 2 ^ 31 := by omega
    have : (natDecimal i.natAbs).length ≤ 10 :=
      natDecimal_length_le 10 i.natAbs (by norm_num) (by norm_num; omega)
    simp [hneg]
    omega
  · have habs : i.toNat < 2 ^ 31 := by omega
    have : (natDecimal i.toNat).length ≤ 10 :=
      natDecimal_length_le 10 i.toNat (by norm_num) (by norm_num; omega)
    simp [hneg]
    omega

/-! ### Branch lemmas for `main` -/

/-- On a successful `readlink`, the run's buffers and exec call. -/
lemma main_some (env : OSEnv) (argv : List String) (t : List Char)
    (h : env.linkTarget = some t) :
    (main env argv).exeBuf = some (readlinkBuf t) ∧
    (main env argv).scriptPath = some (snprintfScriptPath (cString (readlinkBuf t))) ∧
    (main env argv).execCall = some (snprintfScriptPath (cString (readlinkBuf t)), argv) := by
  obtain ⟨c, pid, su, sg, lt, ev⟩ := env
  cases lt with
  | none => simp at h
  | some u =>
      have hu : u = t := by simpa using h
      subst hu
      cases ev <;> exact ⟨rfl, rfl, rfl⟩

/-- On a failed `readlink`, the run prints the diagnostic, exits with `1`,
and makes no exec call. -/
lemma main_none (env : OSEnv) (argv : List String) (h : env.linkTarget = none) :
    (main env argv).diagnostic = some "Failed to get executable path".toList ∧
    (main env argv).outcome = Outcome.exited 1 ∧
    (main env argv).execCall = none ∧
    (main env argv).trace = failTrace := by
  obtain ⟨c, pid, su, sg, lt, ev⟩ := env
  cases lt with
  | none => cases ev <;> exact ⟨rfl, rfl, rfl, rfl⟩
  | some u => simp at h

/-- The credentials a run holds after the two credential calls, as a
function of the two success flags. -/
lemma main_credsAfterDrop (env : OSEnv) (argv : List String) :
    (main env argv).credsAfterDrop =
      (setregid env.setregidOk
        (setreuid env.setreuidOk env.creds env.creds.euid env.creds.euid).1
        (setreuid env.setreuidOk env.creds env.creds.euid env.creds.euid).1.egid
        (setreuid env.setreuidOk env.creds env.creds.euid env.creds.euid).1.egid).1 := by
  obtain ⟨c, pid, su, sg, lt, ev⟩ := env
  cases lt <;> cases ev <;> rfl

/-! ### Claims -/

/-- Claim C1 as stated: every invocation that reaches the exec step holds,
after the privilege-drop step, real ids equal to effective ids and both
equal to the pre-drop effective ids. -/
def claim1Stated : Prop :=
  ∀ (env : OSEnv) (argv : List String), (main env argv).execCall ≠ none →
    (main env argv).credsAfterDrop.ruid = (main env argv).credsAfterDrop.euid ∧
    (main env argv).credsAfterDrop.euid = env.creds.euid ∧
    (main env argv).credsAfterDrop.rgid = (main env argv).credsAfterDrop.egid ∧
    (main env argv).credsAfterDrop.egid = env.creds.egid

/-- Environment refuting C1: `setreuid` fails (its return value is ignored
by the source), `readlink` succeeds, so the exec step is reached with the
real user id still `1000` while the effective user id is `0`. -/
def c1Env : OSEnv :=
  { creds := ⟨1000, 0, 1000, 0⟩, pid := 1, setreuidOk := false,
    setregidOk := true, linkTarget := some "/x".toList, execvOk := true }

/-- Claim C1 is false of the code: the source ignores the result of
`setreuid`, so a run whose `setreuid` call fails still reaches the exec
step with the pre-drop real user id. -/
theorem claim1_counterexample : ¬ claim1Stated := fun h =>
  absurd ((h c1Env ["prog"]) (by decide)).1 (by decide)

/-- Claim C1 (amended): for every invocation in which both
credential-setting calls succeed, after the privilege-drop step the real
user id equals the effective user id and both equal the pre-drop effective
user id, and likewise for the group ids. -/
theorem claim1_amended (env : OSEnv) (argv : List String)
    (hu : env.setreuidOk = true) (hg : env.setregidOk = true) :
    (main env argv).credsAfterDrop.ruid = (main env argv).credsAfterDrop.euid ∧
    (main env argv).credsAfterDrop.euid = env.creds.euid ∧
    (main env argv).credsAfterDrop.rgid = (main env argv).credsAfterDrop.egid ∧
    (main env argv).credsAfterDrop.egid = env.creds.egid := by
  rw [main_credsAfterDrop, hu, hg]
  exact ⟨rfl, rfl, rfl, rfl⟩

/-- Environment for the C1 witness: both credential calls succeed. -/
def c1EnvW : OSEnv :=
  { creds := ⟨1000, 0, 1000, 0⟩, pid := 1, setreuidOk := true,
    setregidOk := true, linkTarget := some "/x".toList, execvOk := true }

/-- Witness for the amended C1 at a concrete elevated environment. -/
theorem claim1_amended_witness :
    c1EnvW.setreuidOk = true ∧ c1EnvW.setregidOk = true ∧
    ((main c1EnvW ["prog"]).credsAfterDrop.ruid = (main c1EnvW ["prog"]).credsAfterDrop.euid ∧
     (main c1EnvW ["prog"]).credsAfterDrop.euid = c1EnvW.creds.euid ∧
     (main c1EnvW ["prog"]).credsAfterDrop.rgid = (main c1EnvW ["prog"]).credsAfterDrop.egid ∧
     (main c1EnvW ["prog"]).credsAfterDrop.egid = c1EnvW.creds.egid) :=
  ⟨rfl, rfl, claim1_amended c1EnvW ["prog"] rfl rfl⟩

/-- Environment exhibiting the C2 bug: both credential calls fail,
`readlink` succeeds. -/
def c2Env : OSEnv :=
  { creds := ⟨1000, 0, 1000, 0⟩, pid := 1, setreuidOk := false,
    setregidOk := false, linkTarget := some "/x".toList, execvOk := true }

/-- Claim C2 describes the spec's required fail-closed behavior; the code
ignores the return values of `setreuid` and `setregid`.  Evidence: in a run
where both credential calls fail, the launcher still performs the exec
call, holding the unchanged pre-drop credentials, instead of terminating
with a non-zero exit code. -/
theorem claim2_code_behavior :
    (main c2Env ["prog"]).execCall ≠ none ∧
    (main c2Env ["prog"]).credsAfterDrop = c2Env.creds ∧
    (main c2Env ["prog"]).outcome = Outcome.execReplaced "/x.py".toList ["prog"] := by
  decide

/-- A resolved self-path of `PATH_MAX - 2` bytes: it fits the `readlink`
buffer with a terminator, but appending `.py` needs `PATH_MAX + 1` bytes. -/
def c3Target : List Char := List.replicate (PATH_MAX - 2) (Char.ofNat 97)

/-- Environment exhibiting the C3 bug: `readlink` resolves to `c3Target`. -/
def c3Env : OSEnv :=
  { creds := ⟨1000, 1000, 1000, 1000⟩, pid := 1, setreuidOk := true,
    setregidOk := true, linkTarget := some c3Target, execvOk := true }

/-- Claim C3 describes the spec's required fail-closed behavior on path
overflow; the code instead truncates silently.  Evidence: with a 4094-byte
self-path the derived path would need 4097 bytes; `snprintf` silently cuts
it to `PATH_MAX - 1` bytes and the exec call is still attempted with the
truncated path, with no fatal error. -/
theorem claim3_code_behavior :
    PATH_MAX - 1 < c3Target.length + 3 ∧
    (main c3Env ["prog"]).execCall =
      some ((c3Target ++ ".py".toList).take (PATH_MAX - 1), ["prog"]) ∧
    (c3Target ++ ".py".toList).take (PATH_MAX - 1) ≠ c3Target ++ ".py".toList := by
  have hnul : ∀ c ∈ c3Target, c ≠ nul := by
    intro c hc
    rw [List.eq_of_mem_replicate hc]
    decide
  have hlen : c3Target.length = PATH_MAX - 2 := by
    simp [c3Target]
  have hcs : cString (readlinkBuf c3Target) = c3Target :=
    cString_readlinkBuf c3Target hnul (by rw [hlen]; unfold PATH_MAX; omega)
  obtain ⟨-, -, hexec⟩ := main_some c3Env ["prog"] c3Target rfl
  refine ⟨by rw [hlen]; unfold PATH_MAX; omega, ?_, ?_⟩
  · rw [hexec, hcs]
    rfl
  · intro heq
    have h1 := congrArg List.length heq
    rw [List.length_take] at h1
    simp [hlen] at h1
    unfold PATH_MAX at h1
    omega

/-- Claim C4 as stated: every run's trace is one of the three strictly
sequential traces, and the resolution step is never reached while the
process still holds pre-drop elevated (real id distinct from effective id)
credentials. -/
def claim4Stated : Prop :=
  ∀ (env : OSEnv) (argv : List String),
    ((main env argv).trace = failTrace ∨ (main env argv).trace = execTrace ∨
     (main env argv).trace = execFailTrace) ∧
    (Event.readlinkCall ∈ (main env argv).trace →
      ¬((main env argv).credsAfterDrop = env.creds ∧
        env.creds.ruid ≠ env.creds.euid))

/-- Environment refuting C4's credential clause: both credential calls
fail, so the resolution step runs with the unchanged elevated credentials. -/
def c4Env : OSEnv :=
  { creds := ⟨1000, 0, 1000, 0⟩, pid := 1, setreuidOk := false,
    setregidOk := false, linkTarget := some "/x".toList, execvOk := true }

/-- Claim C4 is false of the code: credential-call failures are ignored, so
a run whose calls fail reaches the resolution step holding the pre-drop
elevated credentials. -/
theorem claim4_counterexample : ¬ claim4Stated := fun h =>
  (h c4Env ["prog"]).2 (by decide) ⟨by decide, by decide⟩

/-- Claim C4 (amended): both credential-setting calls are performed first
in every run, the trace is one of three strictly sequential call sequences
with no branching back, and whenever both calls succeed the credentials
held from the drop onward are the demoted ones; when a call fails the
process proceeds holding the pre-drop credentials. -/
theorem claim4_amended (env : OSEnv) (argv : List String) :
    ((main env argv).trace = failTrace ∨ (main env argv).trace = execTrace ∨
     (main env argv).trace = execFailTrace) ∧
    (main env argv).trace.take 2 = [Event.setreuidCall, Event.setregidCall] ∧
    (env.setreuidOk = true → env.setregidOk = true →
      (main env argv).credsAfterDrop =
        ⟨env.creds.euid, env.creds.euid, env.creds.egid, env.creds.egid⟩) := by
  refine ⟨?_, ?_, ?_⟩
  · obtain ⟨c, pid, su, sg, lt, ev⟩ := env
    cases lt with
    | none => exact Or.inl rfl
    | some t =>
        cases ev with
        | false => exact Or.inr (Or.inr rfl)
        | true => exact Or.inr (Or.inl rfl)
  · obtain ⟨c, pid, su, sg, lt, ev⟩ := env
    cases lt <;> cases ev <;> rfl
  · intro hu hg
    rw [main_credsAfterDrop, hu, hg]
    rfl

/-- Environment for the C4 witness: both credential calls succeed. -/
def c4EnvW : OSEnv :=
  { creds := ⟨1000, 0, 1000, 0⟩, pid := 1, setreuidOk := true,
    setregidOk := true, linkTarget := some "/x".toList, execvOk := true }

/-- Witness for the amended C4 at a concrete environment. -/
theorem claim4_amended_witness :
    c4EnvW.setreuidOk = true ∧ c4EnvW.setregidOk = true ∧
    (((main c4EnvW ["prog"]).trace = failTrace ∨
      (main c4EnvW ["prog"]).trace = execTrace ∨
      (main c4EnvW ["prog"]).trace = execFailTrace) ∧
     (main c4EnvW ["prog"]).trace.take 2 =
       [Event.setreuidCall, Event.setregidCall] ∧
     (c4EnvW.setreuidOk = true → c4EnvW.setregidOk = true →
       (main c4EnvW ["prog"]).credsAfterDrop =
         ⟨c4EnvW.creds.euid, c4EnvW.creds.euid, c4EnvW.creds.egid,
          c4EnvW.creds.egid⟩)) :=
  ⟨rfl, rfl, claim4_amended c4EnvW ["prog"]⟩

/-- Claim C5: whenever self-path resolution succeeds with a target that has
no NUL byte and fits the path limit together with the suffix, the path
passed to the exec call is exactly the resolved self-path with the literal
`.py` appended, character for character. -/
theorem claim5_script_path (env : OSEnv) (argv : List String) (t : List Char)
    (h : env.linkTarget = some t) (hnul : ∀ c ∈ t, c ≠ nul)
    (hfit : t.length + 3 ≤ PATH_MAX - 1) :
    (main env argv).execCall = some (t ++ ".py".toList, argv) := by
  obtain ⟨-, -, hexec⟩ := main_some env argv t h
  rw [hexec, cString_readlinkBuf t hnul (by omega),
    snprintfScriptPath_eq t hfit]

/-- Environment for the C5 witness. -/
def c5Env : OSEnv :=
  { creds := ⟨1000, 1000, 1000, 1000⟩, pid := 7, setreuidOk := true,
    setregidOk := true, linkTarget := some "/usr/bin/libinput-gestures".toList,
    execvOk := true }

/-- Witness for C5 at a concrete resolved path. -/
theorem claim5_witness :
    c5Env.linkTarget = some "/usr/bin/libinput-gestures".toList ∧
    (∀ c ∈ "/usr/bin/libinput-gestures".toList, c ≠ nul) ∧
    "/usr/bin/libinput-gestures".toList.length + 3 ≤ PATH_MAX - 1 ∧
    (main c5Env ["prog"]).execCall =
      some ("/usr/bin/libinput-gestures".toList ++ ".py".toList, ["prog"]) :=
  ⟨rfl, by decide, by decide,
   claim5_script_path c5Env ["prog"] _ rfl (by decide) (by decide)⟩

/-- Claim C6: the argument vector passed to the exec call is exactly the
argument vector the launcher received, element 0 included, same order,
none added or dropped. -/
theorem claim6_argv_forwarded (env : OSEnv) (argv : List String)
    (p : List Char) (a : List String)
    (h : (main env argv).execCall = some (p, a)) : a = argv := by
  obtain ⟨c, pid, su, sg, lt, ev⟩ := env
  cases lt with
  | none => simp [main] at h
  | some t =>
      cases ev with
      | false =>
          have : (snprintfScriptPath (cString (readlinkBuf t)), argv) = (p, a) := by
            simpa [main] using h
          exact (Prod.mk.injEq _ _ _ _ ▸ this).2.symm ▸ rfl
      | true =>
          have : (snprintfScriptPath (cString (readlinkBuf t)), argv) = (p, a) := by
            simpa [main] using h
          exact (Prod.mk.injEq _ _ _ _ ▸ this).2.symm ▸ rfl

/-- Environment for the C6 witness. -/
def c6Env : OSEnv :=
  { creds := ⟨1000, 1000, 1000, 1000⟩, pid := 7, setreuidOk := true,
    setregidOk := true, linkTarget := some "/x".toList, execvOk := true }

/-- Witness for C6: a concrete run whose exec call receives the original
three-element argument vector unchanged. -/
theorem claim6_witness :
    (main c6Env ["prog", "--flag", "value"]).execCall =
      some ("/x.py".toList, ["prog", "--flag", "value"]) ∧
    (["prog", "--flag", "value"] : List String) = ["prog", "--flag", "value"] :=
  ⟨by decide,
   claim6_argv_forwarded c6Env ["prog", "--flag", "value"] "/x.py".toList
     ["prog", "--flag", "value"] (by decide)⟩

/-- Claim C7: on resolution failure the launcher prints a short diagnostic,
returns exit code `1` and makes no exec call; on exec failure it returns
the exec call's failure return value `-1`; no run returns exit code `0`. -/
theorem claim7_exit_codes (env : OSEnv) (argv : List String) :
    (env.linkTarget = none →
      (main env argv).diagnostic = some "Failed to get executable path".toList ∧
      (main env argv).outcome = Outcome.exited 1 ∧
      (main env argv).execCall = none) ∧
    (∀ t, env.linkTarget = some t → env.execvOk = false →
      (main env argv).outcome = Outcome.exited (-1)) ∧
    (∀ code : Int, (main env argv).outcome = Outcome.exited code → code ≠ 0) := by
  obtain ⟨c, pid, su, sg, lt, ev⟩ := env
  refine ⟨?_, ?_, ?_⟩
  · intro h
    cases lt with
    | none => cases ev <;> exact ⟨rfl, rfl, rfl⟩
    | some t => simp at h
  · intro t ht hv
    cases lt with
    | none => simp at ht
    | some u =>
        cases ev with
        | false => rfl
        | true => simp at hv
  · intro code hc
    cases lt with
    | none =>
        cases ev <;>
          (have : Outcome.exited 1 = Outcome.exited code := hc
           have h1 : (1 : Int) = code := by injection this
           omega)
    | some t =>
        cases ev with
        | false =>
            have : Outcome.exited (-1) = Outcome.exited code := hc
            have h1 : (-1 : Int) = code := by injection this
            omega
        | true => exact absurd hc (by simp [main])

/-- Environment for the C7 witness: `readlink` fails. -/
def c7Env : OSEnv :=
  { creds := ⟨1000, 1000, 1000, 1000⟩, pid := 7, setreuidOk := true,
    setregidOk := true, linkTarget := none, execvOk := true }

/-- Witness for C7: a concrete run whose resolution fails prints the
diagnostic, exits `1`, and never reaches the exec call. -/
theorem claim7_witness :
    c7Env.linkTarget = none ∧
    ((main c7Env ["prog"]).diagnostic =
       some "Failed to get executable path".toList ∧
     (main c7Env ["prog"]).outcome = Outcome.exited 1 ∧
     (main c7Env ["prog"]).execCall = none) :=
  ⟨rfl, (claim7_exit_codes c7Env ["prog"]).1 rfl⟩

/-- Claim C8 as stated: the lookup key is formatted with a bounded/checked
primitive, and for every 32-bit process id the formatted key fits the
`PATH_MAX`-sized buffer. -/
def claim8Stated : Prop :=
  linkPathPrimitive.bounded = true ∧
  ∀ pid : Int, -(2 ^ 31) ≤ pid → pid < 2 ^ 31 →
    (sprintfLinkPath pid).length + 1 ≤ PATH_MAX

/-- Claim C8 is false of the code: line 14 formats the lookup key with
plain `sprintf`, an unchecked primitive. -/
theorem claim8_counterexample : ¬ claim8Stated := fun h =>
  absurd h.1 (by decide)

/-- Claim C8 (amended): the source formats the lookup key with the
unchecked `sprintf`; nevertheless, for every possible 32-bit process id
the formatted key (at most 21 characters) together with its terminator
fits the `PATH_MAX`-sized buffer, so no overflow can occur. -/
theorem claim8_amended (pid : Int) (hlo : -(2 ^ 31) ≤ pid)
    (hhi : pid < 2 ^ 31) :
    linkPathPrimitive.bounded = false ∧
    (sprintfLinkPath pid).length + 1 ≤ PATH_MAX := by
  refine ⟨rfl, ?_⟩
  unfold sprintfLinkPath
  have hlen := intDecimal_length_le pid hlo hhi
  have h6 : ("/proc/".toList).length = 6 := rfl
  have h4 : ("/exe".toList).length = 4 := rfl
  rw [List.length_append, List.length_append, h6, h4]
  unfold PATH_MAX
  omega

/-- Witness for the amended C8 at a concrete process id. -/
theorem claim8_witness :
    (-(2 ^ 31) : Int) ≤ 1234 ∧ (1234 : Int) < 2 ^ 31 ∧
    (linkPathPrimitive.bounded = false ∧
     (sprintfLinkPath 1234).length + 1 ≤ PATH_MAX) :=
  ⟨by decide, by decide, claim8_amended 1234 (by decide) (by decide)⟩

/-- Claim C9: with the buffer zero-filled before `readlink`, a successful
resolution whose NUL-free target is at most `PATH_MAX - 1` bytes leaves a
null-terminated string equal to the link target; a target of exactly
`PATH_MAX` bytes is still reported as success, yet the buffer holds no NUL
terminator anywhere. -/
theorem claim9_readlink_buffer (t : List Char) (hnul : ∀ c ∈ t, c ≠ nul) :
    (t.length ≤ PATH_MAX - 1 → cString (readlinkBuf t) = t) ∧
    (t.length = PATH_MAX →
      readlinkRet (some t) = Int.ofNat PATH_MAX ∧
      ∀ c ∈ readlinkBuf t, c ≠ nul) := by
  constructor
  · exact fun h => cString_readlinkBuf t hnul h
  · intro h
    constructor
    · simp [readlinkRet, h]
    · intro c hc
      unfold readlinkBuf at hc
      rw [List.take_of_length_le (by omega)] at hc
      rw [h] at hc
      simp at hc
      exact hnul c hc

/-- A link target of exactly `PATH_MAX` bytes, for the C9 witness. -/
def c9Target : List Char := List.replicate PATH_MAX (Char.ofNat 97)

/-- Witness for C9 at a target of exactly `PATH_MAX` bytes: `readlink`
reports success and the buffer has no NUL terminator. -/
theorem claim9_witness :
    (∀ c ∈ c9Target, c ≠ nul) ∧ c9Target.length = PATH_MAX ∧
    (readlinkRet (some c9Target) = Int.ofNat PATH_MAX ∧
     ∀ c ∈ readlinkBuf c9Target, c ≠ nul) := by
  have hnul : ∀ c ∈ c9Target, c ≠ nul := by
    intro c hc
    rw [List.eq_of_mem_replicate hc]
    decide
  have hlen : c9Target.length = PATH_MAX := by simp [c9Target]
  exact ⟨hnul, hlen, (claim9_readlink_buffer c9Target hnul).2 hlen⟩

/-- Claim C10: for every successful resolution, the derived script-path
buffer handed to the exec call is the (possibly silently truncated)
concatenation, always of length at most `PATH_MAX - 1` (so it fits the
buffer with its NUL terminator, and no overflow occurs), and the exec call
is still attempted with it. -/
theorem claim10_script_buffer (env : OSEnv) (argv : List String)
    (t : List Char) (h : env.linkTarget = some t) :
    ∃ sp, sp = (cString (readlinkBuf t) ++ ".py".toList).take (PATH_MAX - 1) ∧
      (main env argv).scriptPath = some sp ∧
      sp.length ≤ PATH_MAX - 1 ∧
      (main env argv).execCall = some (sp, argv) := by
  obtain ⟨-, hscript, hexec⟩ := main_some env argv t h
  refine ⟨snprintfScriptPath (cString (readlinkBuf t)), rfl, hscript, ?_, hexec⟩
  unfold snprintfScriptPath
  rw [List.length_take]
  exact Nat.min_le_left _ _

/-- Environment for the C10 witness. -/
def c10Env : OSEnv :=
  { creds := ⟨1000, 1000, 1000, 1000⟩, pid := 7, setreuidOk := true,
    setregidOk := true, linkTarget := some "/x".toList, execvOk := true }

/-- Witness for C10 at a concrete resolved path. -/
theorem claim10_witness :
    c10Env.linkTarget = some "/x".toList ∧
    ∃ sp,
      sp = (cString (readlinkBuf "/x".toList) ++ ".py".toList).take (PATH_MAX - 1) ∧
      (main c10Env ["prog"]).scriptPath = some sp ∧
      sp.length ≤ PATH_MAX - 1 ∧
      (main c10Env ["prog"]).execCall = some (sp, ["prog"]) :=
  ⟨rfl, claim10_script_buffer c10Env ["prog"] "/x".toList rfl⟩

end LibinputGestures
